import Mathlib

/-!
# Verification of `ipython_mcp/server.py`

A shallow embedding of the single-session IPython kernel client in
`src/ipython_mcp/server.py`.  Pure logic (connection-file resolution, the
iopub drain loop, report formatting) is translated directly; the effectful
tool operations (`connect_to_kernel`, `disconnect_kernel`, `shutdown_kernel`,
`execute_code`) are modelled as functions over an explicit `SessionState`
(the two module globals `kernel_client` and `kernel_process`), with the
outcomes of external collaborators (file existence, JSON parsing,
`wait_for_ready`, `kernel_client.shutdown()`, process termination) passed in
as oracle parameters, and the channel-level side effects recorded in an
event trace.
-/

namespace IPythonMcp

/-- The content of an iopub (broadcast) message, as dispatched on
`msg_type` by the drain loop of `execute_code` (server.py lines 243-275).
Message types the loop does not inspect are collapsed into `other`. -/
inductive MsgContent where
  | stream (text : String)
  | executeResult (textPlain : String)
  | error (ename : String) (evalue : String) (traceback : List String)
  | status (executionState : String)
  | other
deriving DecidableEq, Repr

/-- An iopub message: the parent header's `msg_id` (absent keys give `none`,
mirroring `msg.get('parent_header', {}).get('msg_id')`) plus its content. -/
structure IOPubMsg where
  parentMsgId : Option String
  content : MsgContent
deriving DecidableEq, Repr

/-- ANSI colour-code removal applied to each traceback line
(server.py lines 267-268). -/
def cleanAnsi (line : String) : String :=
  ((((line.replace "\x1b[0;31m" "").replace "\x1b[0m" "").replace
      "\x1b[1;32m" "").replace "\x1b[0;32m" "")

/-- The error text built for an iopub `error` message
(server.py lines 261-270): `ename: evalue`, with the ANSI-cleaned traceback
appended when the traceback list is nonempty. -/
def formatErrorMsg (ename evalue : String) (traceback : List String) : String :=
  let base := ename ++ ": " ++ evalue
  if traceback.isEmpty then base
  else base ++ "\n" ++ String.intercalate "\n" (traceback.map cleanAnsi)

/-- The fragment a single matching iopub message contributes to
`output_parts`, or `none` when the message contributes nothing
(server.py lines 243-275).  `status` messages never contribute. -/
def classifyMsg : MsgContent → Option String
  | .stream text =>
      let t := text.trim
      if t.isEmpty then none else some t
  | .executeResult r => if r.isEmpty then none else some r
  | .error en ev tb => some ("❌ " ++ formatErrorMsg en ev tb)
  | .status _ => none
  | .other => none

/-- The iopub drain loop of `execute_code` (server.py lines 235-279).
The input list is the sequence of messages read off the channel before the
per-read timeout; exhausting the list models the timeout `break`, and a
matching `status` message with `execution_state == 'idle'` models the idle
`break`.  Messages whose parent `msg_id` differs from `myId` are skipped by
the `continue` at line 241. -/
def drainIOPub (myId : String) : List IOPubMsg → List String
  | [] => []
  | m :: rest =>
    if m.parentMsgId = some myId then
      match m.content with
      | .stream text =>
          let t := text.trim
          if t.isEmpty then drainIOPub myId rest
          else t :: drainIOPub myId rest
      | .executeResult r =>
          if r.isEmpty then drainIOPub myId rest
          else r :: drainIOPub myId rest
      | .error en ev tb =>
          ("❌ " ++ formatErrorMsg en ev tb) :: drainIOPub myId rest
      | .status st =>
          if st = "idle" then [] else drainIOPub myId rest
      | .other => drainIOPub myId rest
    else drainIOPub myId rest

/-- The shell (primary) reply's content as read by `execute_code`
(server.py lines 282-284): its `status`, and the optional `ename`/`evalue`
keys read with `.get` defaults `'Error'` and `''`. -/
structure ShellReply where
  status : String
  ename : Option String
  evalue : Option String
deriving DecidableEq, Repr

/-- `execute_code` (server.py lines 210-293), given: whether a client is
stored (`kernel_client` truthy), the shell reply (`none` models
`get_shell_msg` raising, with `excMsg` the exception text), the correlation
id returned by `kernel_client.execute(code)`, and the iopub messages read
during the drain loop. -/
def execute_code (connected : Bool) (replyRes : Option ShellReply)
    (excMsg : String) (myId : String) (msgs : List IOPubMsg) : String :=
  if connected = false then
    "❌ Not connected to kernel. Use connect_to_kernel() first."
  else
    match replyRes with
    | none => "❌ Execution failed: " ++ excMsg
    | some reply =>
      let output_parts := drainIOPub myId msgs
      if reply.status = "error" then
        "❌ " ++ reply.ename.getD "Error" ++ ": " ++ reply.evalue.getD ""
      else if output_parts.isEmpty then
        "✅ Code executed successfully (no output)"
      else
        String.intercalate "\n" output_parts

/-- Python truthiness of an optional string: `None` and `''` are falsy. -/
def truthy : Option String → Bool
  | none => false
  | some s => !s.isEmpty

/-- `resolve_connection_file` (server.py lines 32-58): explicit parameter
(when truthy), else the `IPYTHON_MCP_CONNECTION` environment variable (when
set and truthy), else the bundled package default path (passed in as
`packageDefault`, covering both the `resources.files` path and its
development fallback). -/
def resolve_connection_file (connection_file : Option String)
    (envConnection : Option String) (packageDefault : String) : String :=
  if truthy connection_file then connection_file.getD ""
  else if truthy envConnection then envConnection.getD ""
  else packageDefault

/-- A spawned worker process handle (`subprocess.Popen`): its pid and
whether `poll()` reports it has already exited. -/
structure ProcHandle where
  pid : Nat
  exited : Bool
deriving DecidableEq, Repr

/-- The module-global session state (server.py lines 28-29): the optional
connection handle `kernel_client` (identified by a handle id) and the
optional process handle `kernel_process`. -/
structure SessionState where
  kernel_client : Option Nat
  kernel_process : Option ProcHandle
deriving DecidableEq, Repr

/-- Channel-level side effects performed by the tool operations, recorded
in order of occurrence. -/
inductive Event where
  | stopChannels (h : Nat)
  | createClient (h : Nat)
  | startChannels (h : Nat)
  | waitForReady (h : Nat)
deriving DecidableEq, Repr

/-- The connection info read from the descriptor JSON, as used by the
success message of `connect_to_kernel` (server.py line 203). -/
structure ConnInfo where
  ip : String
  shell_port : Nat
  key : String
deriving DecidableEq, Repr

/-- The Windows notice appended to the connect success message
(server.py lines 199-201). -/
def windowsNotice (isWindows : Bool) : String :=
  if isWindows then
    "\n⚠️ Note: interrupt_kernel() not supported on Windows - use Ctrl+C in kernel window to interrupt execution"
  else ""

/-- The success report of `connect_to_kernel` (server.py line 203), with
the authentication key redacted to its first 8 characters. -/
def connectSuccessMsg (info : ConnInfo) (path : String)
    (isWindows : Bool) : String :=
  "✅ Connected to IPython kernel at " ++ info.ip ++ ":"
    ++ toString info.shell_port
    ++ "\n📁 Connection file: " ++ path
    ++ "\n🔑 Using key: " ++ info.key.take 8 ++ "..."
    ++ windowsNotice isWindows

/-- `connect_to_kernel` (server.py lines 157-206), given: the current
session state, whether the resolved descriptor file exists, the result of
`json.load` (`none` models a parse exception reaching the outer handler,
with `excMsg` the exception text), a fresh handle id for the new
`BlockingKernelClient`, whether `wait_for_ready(timeout=5)` succeeds,
the displayed descriptor path, and the platform flag.
Returns the report string, the new session state, and the event trace. -/
def connect_to_kernel (st : SessionState) (fileExists : Bool)
    (parsed : Option ConnInfo) (newId : Nat) (waitReady : Bool)
    (path : String) (excMsg : String) (isWindows : Bool) :
    String × SessionState × List Event :=
  if fileExists = false then
    ("❌ Connection file not found: " ++ path, st, [])
  else
    match parsed with
    | none => ("❌ Failed to connect: " ++ excMsg, st, [])
    | some info =>
      let ev0 : List Event :=
        match st.kernel_client with
        | some h => [Event.stopChannels h]
        | none => []
      let st1 : SessionState :=
        { kernel_client := some newId, kernel_process := st.kernel_process }
      let evs := ev0 ++ [Event.createClient newId, Event.startChannels newId,
        Event.waitForReady newId]
      if waitReady = false then
        ("❌ Failed to connect to kernel: " ++ excMsg, st1, evs)
      else
        (connectSuccessMsg info path isWindows, st1, evs)

/-- `disconnect_kernel` (server.py lines 317-335): when a client is
stored, stops its channels and clears the `kernel_client` slot; `stopOk`
is whether `stop_channels()` succeeds — when it raises, the except branch
at lines 334-335 returns an error report and the clearing at line 330 is
never reached, so the slot keeps the handle.  With no stored client the
call is a no-op that still reports success. -/
def disconnect_kernel (st : SessionState) (stopOk : Bool) (excMsg : String) :
    String × SessionState × List Event :=
  match st.kernel_client with
  | some h =>
      if stopOk then
        ("✅ Disconnected from kernel",
         { kernel_client := none, kernel_process := st.kernel_process },
         [Event.stopChannels h])
      else
        ("❌ Error during disconnection: " ++ excMsg, st, [])
  | none => ("✅ Disconnected from kernel", st, [])

/-- `shutdown_kernel` (server.py lines 338-400), given: the current session
state, the platform flag, whether `kernel_client.shutdown()` succeeds
(`protoOk`), whether the process-termination step raises (`termRaises`,
with `termExcMsg` the exception text), and whether the `stop_channels()`
call inside the `disconnect_kernel()` cleanup succeeds (`stopOk`, with
`stopExcMsg` its exception text; `disconnect_kernel`'s return value is
ignored by the source, so only its state effect matters here).  Returns
the report string and the new session state. -/
def shutdown_kernel (st : SessionState) (isWindows : Bool) (protoOk : Bool)
    (termRaises : Bool) (termExcMsg : String) (stopOk : Bool)
    (stopExcMsg : String) : String × SessionState :=
  match st.kernel_client with
  | none => ("❌ Not connected to any kernel", st)
  | some _ =>
    if protoOk then
      ("✅ Kernel shutdown gracefully via Jupyter protocol",
       (disconnect_kernel st stopOk stopExcMsg).2.1)
    else
      match st.kernel_process with
      | some p =>
        if p.exited = false then
          if termRaises then
            ("⚠️ Kernel process termination failed: " ++ termExcMsg
               ++ ", but connections closed",
             (disconnect_kernel st stopOk stopExcMsg).2.1)
          else
            ((if isWindows then "✅ Kernel shutdown forcefully (Windows terminate/kill)"
              else "✅ Kernel shutdown forcefully (Unix SIGTERM/SIGKILL)"),
             (disconnect_kernel st stopOk stopExcMsg).2.1)
        else
          ("✅ Kernel connections closed (process may still be running)",
           (disconnect_kernel st stopOk stopExcMsg).2.1)
      | none =>
          ("✅ Kernel connections closed (process may still be running)",
           (disconnect_kernel st stopOk stopExcMsg).2.1)

/-- The set of handle ids with open channels after a trace of events,
starting from an initial set: `startChannels` opens a handle,
`stopChannels` closes it. -/
def openHandlesStep (acc : List Nat) : Event → List Nat
  | .stopChannels h => acc.erase h
  | .startChannels h => if h ∈ acc then acc else acc ++ [h]
  | _ => acc

/-- Fold of `openHandlesStep` over an event trace. -/
def openHandles (init : List Nat) : List Event → List Nat
  | [] => init
  | e :: rest => openHandles (openHandlesStep init e) rest

end IPythonMcp

namespace IPythonMcp

/-- Unfolding of the drain loop on a message whose parent id matches:
an idle status terminates the loop with no further output; otherwise the
message contributes its `classifyMsg` fragment (if any) and the loop
continues. -/
theorem drainIOPub_cons_matching (myId : String) (pid : Option String)
    (c : MsgContent) (rest : List IOPubMsg) (hm : pid = some myId) :
    drainIOPub myId (⟨pid, c⟩ :: rest) =
      if c = MsgContent.status "idle" then []
      else
        match classifyMsg c with
        | some frag => frag :: drainIOPub myId rest
        | none => drainIOPub myId rest := by
  subst hm
  rcases c with text | r | ⟨en, ev, tb⟩ | st | _
  · by_cases ht : text.trim.isEmpty <;> simp [drainIOPub, classifyMsg, ht]
  · by_cases hr : r.isEmpty <;> simp [drainIOPub, classifyMsg, hr]
  · simp [drainIOPub, classifyMsg]
  · by_cases hst : st = "idle" <;> simp [drainIOPub, classifyMsg, hst]
  · simp [drainIOPub, classifyMsg]

/-- Unfolding of the drain loop on a message whose parent id does not
match: the message is skipped entirely. -/
theorem drainIOPub_cons_skip (myId : String) (pid : Option String)
    (c : MsgContent) (rest : List IOPubMsg) (hm : ¬ pid = some myId) :
    drainIOPub myId (⟨pid, c⟩ :: rest) = drainIOPub myId rest := by
  simp [drainIOPub, hm]

/-- Every fragment collected by the drain loop is the classification of
some message in the input whose parent id matches the request id. -/
theorem drain_mem_exists (myId : String) (msgs : List IOPubMsg) (frag : String)
    (hf : frag ∈ drainIOPub myId msgs) :
    ∃ m ∈ msgs, m.parentMsgId = some myId ∧ classifyMsg m.content = some frag := by
  induction msgs with
  | nil => simp [drainIOPub] at hf
  | cons m rest ih =>
    rcases m with ⟨pid, c⟩
    by_cases hm : pid = some myId
    · rw [drainIOPub_cons_matching myId pid c rest hm] at hf
      by_cases hidle : c = MsgContent.status "idle"
      · rw [if_pos hidle] at hf
        simp at hf
      · rw [if_neg hidle] at hf
        rcases hcl : classifyMsg c with _ | f
        · simp only [hcl] at hf
          obtain ⟨m', h1, h2, h3⟩ := ih hf
          exact ⟨m', List.mem_cons_of_mem _ h1, h2, h3⟩
        · simp only [hcl] at hf
          rcases List.mem_cons.mp hf with rfl | hf'
          · exact ⟨⟨pid, c⟩, List.mem_cons_self _ _, hm, hcl⟩
          · obtain ⟨m', h1, h2, h3⟩ := ih hf'
            exact ⟨m', List.mem_cons_of_mem _ h1, h2, h3⟩
    · rw [drainIOPub_cons_skip myId pid c rest hm] at hf
      obtain ⟨m', h1, h2, h3⟩ := ih hf
      exact ⟨m', List.mem_cons_of_mem _ h1, h2, h3⟩

/-- The drain loop's output is unchanged by deleting the non-matching
messages from its input: skipped messages have no effect at all. -/
theorem drain_filter_eq (myId : String) (msgs : List IOPubMsg) :
    drainIOPub myId msgs =
      drainIOPub myId (msgs.filter fun m => m.parentMsgId == some myId) := by
  induction msgs with
  | nil => rfl
  | cons m rest ih =>
    rcases m with ⟨pid, c⟩
    by_cases hm : pid = some myId
    · have hfil : (⟨pid, c⟩ :: rest).filter (fun m => m.parentMsgId == some myId)
          = ⟨pid, c⟩ :: rest.filter (fun m => m.parentMsgId == some myId) := by
        simp [List.filter_cons, hm]
      rw [hfil, drainIOPub_cons_matching myId pid c rest hm,
        drainIOPub_cons_matching myId pid c _ hm, ih]
    · have hfil : (⟨pid, c⟩ :: rest).filter (fun m => m.parentMsgId == some myId)
          = rest.filter (fun m => m.parentMsgId == some myId) := by
        simp [List.filter_cons, hm]
      rw [hfil, drainIOPub_cons_skip myId pid c rest hm, ih]

/-- C1: the collected output of the iopub drain loop of `execute_code` is
built only from messages whose parent msg_id equals this request's
correlation id: every collected fragment is the classification of a
matching message, and the whole output is unchanged when all non-matching
messages are deleted from the stream — a fragment from an unrelated
execution is never appended. -/
theorem drain_only_matching_correlation (myId : String) (msgs : List IOPubMsg) :
    (∀ frag ∈ drainIOPub myId msgs,
       ∃ m ∈ msgs, m.parentMsgId = some myId ∧ classifyMsg m.content = some frag) ∧
    drainIOPub myId msgs =
      drainIOPub myId (msgs.filter fun m => m.parentMsgId == some myId) :=
  ⟨fun frag hf => drain_mem_exists myId msgs frag hf, drain_filter_eq myId msgs⟩

/-- Witness for C1 at a concrete one-message stream. -/
theorem drain_only_matching_correlation_witness :
    ∃ m ∈ [IOPubMsg.mk (some "id1") (MsgContent.executeResult "5")],
      m.parentMsgId = some "id1" ∧ classifyMsg m.content = some "5" := by
  apply (drain_only_matching_correlation "id1"
    [⟨some "id1", MsgContent.executeResult "5"⟩]).1 "5"
  decide

end IPythonMcp

namespace IPythonMcp

/-- C2: when the primary shell reply's status is error, `execute_code`
returns exactly the reply's own error summary (ename and evalue with the
failure marker, using the `.get` defaults), for every possible iopub
stream: all collected broadcast fragments, error fragments included, are
discarded from the result. -/
theorem execute_code_error_reply_authoritative (r : ShellReply)
    (hs : r.status = "error") (excMsg myId : String) (msgs : List IOPubMsg) :
    execute_code true (some r) excMsg myId msgs =
      "❌ " ++ r.ename.getD "Error" ++ ": " ++ r.evalue.getD "" := by
  simp [execute_code, hs]

/-- Witness for C2: an error reply wins over a collected error fragment. -/
theorem execute_code_error_reply_authoritative_witness :
    execute_code true (some ⟨"error", some "ValueError", some "bad"⟩) "" "id1"
      [⟨some "id1", MsgContent.error "ZeroDivisionError" "division by zero" []⟩] =
      "❌ ValueError: bad" := by
  have h := execute_code_error_reply_authoritative
    ⟨"error", some "ValueError", some "bad"⟩ rfl "" "id1"
    [⟨some "id1", MsgContent.error "ZeroDivisionError" "division by zero" []⟩]
  rw [h]
  rfl

/-- The drain loop collects nothing when every matching message is a
status message or a whitespace-only stream message. -/
theorem drainIOPub_eq_nil (myId : String) (msgs : List IOPubMsg)
    (hmsgs : ∀ m ∈ msgs, m.parentMsgId = some myId →
      (∃ st, m.content = MsgContent.status st) ∨
      (∃ text, m.content = MsgContent.stream text ∧ text.trim.isEmpty)) :
    drainIOPub myId msgs = [] := by
  induction msgs with
  | nil => rfl
  | cons m rest ih =>
    have hrest := ih (fun m' hm' => hmsgs m' (List.mem_cons_of_mem _ hm'))
    rcases m with ⟨pid, c⟩
    by_cases hm : pid = some myId
    · rcases hmsgs ⟨pid, c⟩ (List.mem_cons_self _ _) hm with ⟨st, hc⟩ | ⟨text, hc, ht⟩
      · simp only at hc
        subst hc
        rw [drainIOPub_cons_matching myId pid _ rest hm]
        by_cases hst : st = "idle" <;> simp [classifyMsg, hst, hrest]
      · simp only at hc
        subst hc
        rw [drainIOPub_cons_matching myId pid _ rest hm]
        simp [classifyMsg, ht, hrest]
    · rw [drainIOPub_cons_skip myId pid c rest hm]
      exact hrest

/-- C10: when the shell reply is present and not an error and every
matching broadcast message is a status message or a stream message whose
text trims to empty, `execute_code` returns the distinguished no-output
success report: whitespace-only stream output counts as no output. -/
theorem execute_code_no_output_success (r : ShellReply) (excMsg myId : String)
    (msgs : List IOPubMsg) (hs : r.status ≠ "error")
    (hmsgs : ∀ m ∈ msgs, m.parentMsgId = some myId →
      (∃ st, m.content = MsgContent.status st) ∨
      (∃ text, m.content = MsgContent.stream text ∧ text.trim.isEmpty)) :
    execute_code true (some r) excMsg myId msgs =
      "✅ Code executed successfully (no output)" := by
  have hd := drainIOPub_eq_nil myId msgs hmsgs
  simp [execute_code, hs, hd]

/-- Witness for C10 at a concrete stream of status messages plus an
unrelated non-matching stream fragment. -/
theorem execute_code_no_output_success_witness :
    execute_code true (some ⟨"ok", none, none⟩) "" "id1"
      [⟨some "id1", MsgContent.status "busy"⟩,
       ⟨some "other", MsgContent.stream "unrelated"⟩,
       ⟨some "id1", MsgContent.status "idle"⟩] =
      "✅ Code executed successfully (no output)" := by
  apply execute_code_no_output_success
  · decide
  · intro m hm
    simp only [List.mem_cons, List.not_mem_nil, or_false] at hm
    rcases hm with rfl | rfl | rfl
    · intro _
      exact Or.inl ⟨"busy", rfl⟩
    · intro hp
      exact absurd hp (by decide)
    · intro _
      exact Or.inl ⟨"idle", rfl⟩

end IPythonMcp

namespace IPythonMcp

/-- Evaluation fact used for the empty-string branches of the precedence
proof. -/
theorem emptyString_isEmpty : ("" : String).isEmpty = true := rfl

/-- C6: `resolve_connection_file` strictly follows the precedence chain
explicit argument > `IPYTHON_MCP_CONNECTION` environment variable > bundled
package default, over every combination of set/unset: a non-empty explicit
argument is returned regardless of the environment; with the explicit
argument unset or empty, a set non-empty environment value is returned;
with both unset or empty, the package default is returned. -/
theorem resolve_connection_file_precedence (cf env : Option String) (d : String) :
    (∀ c, cf = some c → ¬ c = "" → resolve_connection_file cf env d = c) ∧
    ((cf = none ∨ cf = some "") → ∀ e, env = some e → ¬ e = "" →
      resolve_connection_file cf env d = e) ∧
    ((cf = none ∨ cf = some "") → (env = none ∨ env = some "") →
      resolve_connection_file cf env d = d) := by
  refine ⟨?_, ?_, ?_⟩
  · rintro c rfl hc
    simp [resolve_connection_file, truthy, String.isEmpty_iff, hc]
  · rintro (rfl | rfl) e rfl he <;>
      simp [resolve_connection_file, truthy, String.isEmpty_iff, he,
        emptyString_isEmpty]
  · rintro (rfl | rfl) (rfl | rfl) <;>
      simp [resolve_connection_file, truthy, emptyString_isEmpty]

/-- Witness for C6: one concrete instance of each precedence level. -/
theorem resolve_connection_file_precedence_witness :
    resolve_connection_file (some "/tmp/conn.json") (some "/env/conn.json")
      "/pkg/default_connection.json" = "/tmp/conn.json" ∧
    resolve_connection_file none (some "/env/conn.json")
      "/pkg/default_connection.json" = "/env/conn.json" ∧
    resolve_connection_file (some "") none
      "/pkg/default_connection.json" = "/pkg/default_connection.json" := by
  refine ⟨?_, ?_, ?_⟩
  · exact (resolve_connection_file_precedence (some "/tmp/conn.json")
      (some "/env/conn.json") "/pkg/default_connection.json").1 "/tmp/conn.json"
      rfl (by decide)
  · exact (resolve_connection_file_precedence none (some "/env/conn.json")
      "/pkg/default_connection.json").2.1 (Or.inl rfl) "/env/conn.json" rfl (by decide)
  · exact (resolve_connection_file_precedence (some "") none
      "/pkg/default_connection.json").2.2 (Or.inr rfl) (Or.inl rfl)

/-- C7 counterexample: a concrete `disconnect_kernel` call with a stored
client whose `stop_channels()` raises returns an error report, not the
success report, and leaves the connection slot occupied — so after one
call the slot is not empty. -/
theorem disconnect_raising_stop_slot_not_cleared :
    (disconnect_kernel ⟨some 0, none⟩ false "boom").1 =
      "❌ Error during disconnection: boom" ∧
    ¬ (disconnect_kernel ⟨some 0, none⟩ false "boom").2.1.kernel_client = none := by
  constructor
  · rfl
  · simp [disconnect_kernel]

/-- C7 amended: `disconnect_kernel` with no stored client is a no-op that
still returns the success report regardless of the oracle; when
`stop_channels()` succeeds it returns the success report, clears the
connection slot, and any further disconnect call leaves the resulting
state unchanged (twice equals once, slot empty in both); when
`stop_channels()` raises on a stored client, it returns the error report
and leaves the session state unchanged. -/
theorem disconnect_kernel_amended (st : SessionState) (excMsg : String) :
    ((disconnect_kernel st true excMsg).1 = "✅ Disconnected from kernel" ∧
     (disconnect_kernel st true excMsg).2.1.kernel_client = none ∧
     (∀ b m, (disconnect_kernel (disconnect_kernel st true excMsg).2.1 b m).2.1 =
        (disconnect_kernel st true excMsg).2.1)) ∧
    (st.kernel_client = none →
      ∀ b m, disconnect_kernel st b m = ("✅ Disconnected from kernel", st, [])) ∧
    (∀ h, st.kernel_client = some h →
      (disconnect_kernel st false excMsg).1 =
        "❌ Error during disconnection: " ++ excMsg ∧
      (disconnect_kernel st false excMsg).2.1 = st) := by
  obtain ⟨c, p⟩ := st
  cases c <;> simp [disconnect_kernel]

/-- Witness for the amended C7: a no-client no-op under a raising oracle,
and a stored client kept in place by a raising `stop_channels()`. -/
theorem disconnect_kernel_amended_witness :
    disconnect_kernel ⟨none, some ⟨7, false⟩⟩ false "e" =
      ("✅ Disconnected from kernel", ⟨none, some ⟨7, false⟩⟩, []) ∧
    (disconnect_kernel ⟨some 2, none⟩ false "boom").1 =
      "❌ Error during disconnection: boom" ∧
    (disconnect_kernel ⟨some 2, none⟩ false "boom").2.1 = ⟨some 2, none⟩ := by
  refine ⟨?_, ?_⟩
  · exact (disconnect_kernel_amended ⟨none, some ⟨7, false⟩⟩ "x").2.1 rfl false "e"
  · exact (disconnect_kernel_amended ⟨some 2, none⟩ "boom").2.2 2 rfl

/-- C9: `disconnect_kernel` mutates only the connection slot: the tracked
process handle is returned unchanged for every session state and every
outcome of `stop_channels()` — on the success path, the raising path, and
the no-client path alike — so a worker process stays tracked across any
number of disconnects. -/
theorem disconnect_kernel_preserves_process (st : SessionState)
    (stopOk : Bool) (excMsg : String) :
    (disconnect_kernel st stopOk excMsg).2.1.kernel_process = st.kernel_process := by
  obtain ⟨c, p⟩ := st
  cases c <;> cases stopOk <;> simp [disconnect_kernel]

/-- C8: when the descriptor file does not exist, and likewise when it
exists but its contents fail to parse, `connect_to_kernel` returns a
failure report, leaves the session state — hence any previously stored
connection handle — unchanged, and performs no channel teardown (empty
event trace): a failed load never destroys a working connection. -/
theorem connect_failed_load_preserves_state (st : SessionState)
    (parsed : Option ConnInfo) (newId : Nat) (wr : Bool)
    (path excMsg : String) (w : Bool) :
    connect_to_kernel st false parsed newId wr path excMsg w =
      ("❌ Connection file not found: " ++ path, st, []) ∧
    connect_to_kernel st true none newId wr path excMsg w =
      ("❌ Failed to connect: " ++ excMsg, st, []) := by
  constructor <;> simp [connect_to_kernel]

end IPythonMcp

namespace IPythonMcp

/-- C3 counterexample: a concrete `connect_to_kernel` call whose readiness
wait fails returns the ConnectError-class failure report, yet the
connection slot is not left empty — the new half-open client handle is
still stored in `kernel_client`. -/
theorem connect_timeout_slot_not_empty :
    (connect_to_kernel ⟨none, none⟩ true (some ⟨"127.0.0.1", 60001, "secretkey"⟩)
        7 false "/tmp/conn.json" "timeout" false).1 =
      "❌ Failed to connect to kernel: timeout" ∧
    ¬ (connect_to_kernel ⟨none, none⟩ true (some ⟨"127.0.0.1", 60001, "secretkey"⟩)
        7 false "/tmp/conn.json" "timeout" false).2.1.kernel_client = none := by
  constructor
  · rfl
  · simp [connect_to_kernel]

/-- C3 amended: when the readiness wait of `connect_to_kernel` fails, the
operation returns the ConnectError-class failure report, but the
connection slot is not left empty: the freshly created half-open client
handle remains stored in `kernel_client` (the process slot is unchanged). -/
theorem connect_timeout_keeps_half_open_handle (st : SessionState)
    (info : ConnInfo) (newId : Nat) (path excMsg : String) (w : Bool) :
    (connect_to_kernel st true (some info) newId false path excMsg w).1 =
      "❌ Failed to connect to kernel: " ++ excMsg ∧
    (connect_to_kernel st true (some info) newId false path excMsg w).2.1 =
      ⟨some newId, st.kernel_process⟩ := by
  obtain ⟨c, p⟩ := st
  cases c <;> simp [connect_to_kernel]

/-- C4 counterexample: a concrete `shutdown_kernel` call with an open
connection and an already-exited tracked process (and a cleanly succeeding
channel teardown) returns the connections-closed report but does not fully
clear the session state — the process slot still holds the exited
handle. -/
theorem shutdown_exited_process_slot_not_cleared :
    (shutdown_kernel ⟨some 0, some ⟨4242, true⟩⟩ false false false "" true "").1 =
      "✅ Kernel connections closed (process may still be running)" ∧
    ¬ (shutdown_kernel ⟨some 0, some ⟨4242, true⟩⟩ false false false ""
        true "").2.kernel_process = none := by
  constructor
  · rfl
  · simp [shutdown_kernel, disconnect_kernel]

/-- C4 amended: `shutdown_kernel` with an open connection and an
already-exited tracked process returns a success report without raising —
the connections-closed one exactly when the protocol-level shutdown step
fails, and the graceful-shutdown message when that step succeeds — and
the process slot keeps the exited process handle (it is never cleared
anywhere); the connection slot is cleared whenever the `stop_channels()`
call inside the `disconnect_kernel()` cleanup does not raise. -/
theorem shutdown_exited_process_behavior (st : SessionState) (h : Nat)
    (p : ProcHandle) (hc : st.kernel_client = some h)
    (hp : st.kernel_process = some p) (he : p.exited = true)
    (w protoOk termRaises stopOk : Bool) (emsg stopMsg : String) :
    (shutdown_kernel st w protoOk termRaises emsg stopOk stopMsg).1 =
      (if protoOk then "✅ Kernel shutdown gracefully via Jupyter protocol"
       else "✅ Kernel connections closed (process may still be running)") ∧
    (shutdown_kernel st w protoOk termRaises emsg stopOk stopMsg).2.kernel_process
      = some p ∧
    (stopOk = true →
      (shutdown_kernel st w protoOk termRaises emsg stopOk stopMsg).2.kernel_client
        = none) := by
  cases protoOk <;> cases stopOk <;>
    simp [shutdown_kernel, disconnect_kernel, hc, hp, he]

/-- Witness for the amended C4 at a concrete state whose tracked process
has exited, whose protocol-level shutdown step fails, and whose channel
teardown succeeds. -/
theorem shutdown_exited_process_behavior_witness :
    (shutdown_kernel ⟨some 1, some ⟨99, true⟩⟩ false false false "x" true "y").1 =
      "✅ Kernel connections closed (process may still be running)" ∧
    (shutdown_kernel ⟨some 1, some ⟨99, true⟩⟩ false false false "x"
      true "y").2.kernel_process = some ⟨99, true⟩ ∧
    (shutdown_kernel ⟨some 1, some ⟨99, true⟩⟩ false false false "x"
      true "y").2.kernel_client = none := by
  have h := shutdown_exited_process_behavior ⟨some 1, some ⟨99, true⟩⟩ 1 ⟨99, true⟩
    rfl rfl rfl false false false true "x" "y"
  exact ⟨by simpa using h.1, h.2.1, h.2.2 rfl⟩

/-- At-most-one-open-handle bound for the concrete event trace produced by
a connect call that tears down a prior handle. -/
theorem openHandles_connect_trace (h newId : Nat) (n : Nat) :
    (openHandles [h] (([Event.stopChannels h, Event.createClient newId,
        Event.startChannels newId, Event.waitForReady newId]).take n)).length ≤ 1 := by
  match n with
  | 0 => simp [openHandles]
  | 1 => simp [openHandles, openHandlesStep]
  | 2 => simp [openHandles, openHandlesStep]
  | 3 => simp [openHandles, openHandlesStep]
  | n + 4 => simp [openHandles, openHandlesStep]

/-- C5: when a prior connection handle is stored and `connect_to_kernel`
reaches the channel-opening step (file exists and parse succeeds), the
prior handle's channels are stopped first and only then is the new client
created and its channels started — the event trace is exactly
stop-prior, create-new, start-new, wait-ready — so at every point of the
trace at most one handle has open channels. -/
theorem connect_single_open_handle (st : SessionState) (h : Nat)
    (hc : st.kernel_client = some h) (info : ConnInfo) (newId : Nat)
    (wr : Bool) (path excMsg : String) (w : Bool) :
    (connect_to_kernel st true (some info) newId wr path excMsg w).2.2 =
      [Event.stopChannels h, Event.createClient newId,
       Event.startChannels newId, Event.waitForReady newId] ∧
    ∀ n : Nat,
      (openHandles [h]
        (((connect_to_kernel st true (some info) newId wr path excMsg w).2.2).take n)).length
        ≤ 1 := by
  have htr : (connect_to_kernel st true (some info) newId wr path excMsg w).2.2 =
      [Event.stopChannels h, Event.createClient newId,
       Event.startChannels newId, Event.waitForReady newId] := by
    cases wr <;> simp [connect_to_kernel, hc]
  refine ⟨htr, ?_⟩
  intro n
  rw [htr]
  exact openHandles_connect_trace h newId n

/-- Witness for C5 at a concrete prior-connected state. -/
theorem connect_single_open_handle_witness :
    (connect_to_kernel ⟨some 3, none⟩ true (some ⟨"1.2.3.4", 1, "k"⟩)
        5 true "p" "e" false).2.2 =
      [Event.stopChannels 3, Event.createClient 5,
       Event.startChannels 5, Event.waitForReady 5] ∧
    (openHandles [3]
      (((connect_to_kernel ⟨some 3, none⟩ true (some ⟨"1.2.3.4", 1, "k"⟩)
          5 true "p" "e" false).2.2).take 2)).length ≤ 1 := by
  have h := connect_single_open_handle ⟨some 3, none⟩ 3 rfl ⟨"1.2.3.4", 1, "k"⟩
    5 true "p" "e" false
  exact ⟨h.1, h.2 2⟩

end IPythonMcp
